import Mathlib

/-!
Verification of `project-1/requests.go`: a small HTTP client/server demo.

The Go program starts an HTTP server with two routes (`/` and `/raw_body`),
hands its bound address back over an unbuffered channel, and then runs three
client calls in sequence (plain GET, GET with a custom header, POST via a
custom transport), printing each result.

The embedding below translates, function by function:
  * the two request handlers registered in `startServer` (lines 15-28),
  * the request-target parsing the server performs to populate `r.URL`
    (origin-form targets without percent escapes or fragments, which is the
    only shape this program ever produces),
  * Go's `%#v` ("Go-syntax") formatting of `*url.URL` and of strings, which
    the handlers and the driver use for their echoes,
  * the three driver functions `runGet`, `runGetFullReq`,
    `runTransportAndPost` and `main` (lines 37-109), as functions from the
    outcome of the HTTP call to the list of observable actions performed,
  * the one-shot address hand-off, as a small labelled transition system
    with an explicit rendezvous step.
-/

namespace Requests

/-! ## Go-syntax formatting (`fmt.Printf` with `%#v`, `strconv.Quote`) -/

/-- How Go's quoted-string formatting renders one character: `"`, `\`,
newline, tab and carriage return are escaped, other (printable) characters
stand for themselves.  The program only ever formats printable ASCII. -/
def goEscapeChar (c : Char) : String :=
  if c = '"' then "\\\""
  else if c = '\\' then "\\\\"
  else if c = '\n' then "\\n"
  else if c = '\t' then "\\t"
  else if c = '\r' then "\\r"
  else String.singleton c

/-- Escape a character list, as Go quoting does. -/
def goEscape : List Char → List Char
  | [] => []
  | c :: rest => (goEscapeChar c).data ++ goEscape rest

/-- Go's `%#v` / `%q` rendering of a string: surrounding double quotes with
the content escaped. -/
def goQuote (s : String) : String :=
  String.mk ('"' :: (goEscape s.data ++ ['"']))

/-- A string all of whose characters survive Go quoting unchanged. -/
def goPlainStr (s : String) : Prop :=
  ∀ c ∈ s.data, goEscapeChar c = String.singleton c

/-- Go's rendering of a `bool` value. -/
def showBool (b : Bool) : String := if b then "true" else "false"

/-! ## The parsed request URL (`net/url.URL`) -/

/-- The fields of Go's `url.URL` that `%#v` prints.  The `User` field is
always `(*url.Userinfo)(nil)` for the requests this server receives, so it
is kept as fixed text in `urlGoRepr`. -/
structure URL where
  scheme : String
  opaq : String
  host : String
  path : String
  rawPath : String
  omitHost : Bool
  forceQuery : Bool
  rawQuery : String
  fragment : String
  rawFragment : String
deriving DecidableEq

/-- Go's `%#v` rendering of the `*url.URL` the root handler receives
(`fmt.Fprintf(w, "getHandler: r.Url %#v\n", r.URL)`, line 17). -/
def urlGoRepr (u : URL) : String :=
  "&url.URL\x7bScheme:" ++ goQuote u.scheme
    ++ ", Opaque:" ++ goQuote u.opaq
    ++ ", User:(*url.Userinfo)(nil), Host:" ++ goQuote u.host
    ++ ", Path:" ++ goQuote u.path
    ++ ", RawPath:" ++ goQuote u.rawPath
    ++ ", OmitHost:" ++ showBool u.omitHost
    ++ ", ForceQuery:" ++ showBool u.forceQuery
    ++ ", RawQuery:" ++ goQuote u.rawQuery
    ++ ", Fragment:" ++ goQuote u.fragment
    ++ ", RawFragment:" ++ goQuote u.rawFragment
    ++ "\x7d"

/-- Path component of an origin-form request target: everything before the
first `?`. -/
def pathOf (t : String) : String := String.mk (t.data.takeWhile (· ≠ '?'))

/-- Raw query of an origin-form request target: everything after the first
`?` (empty when there is no `?`). -/
def queryOf (t : String) : String :=
  String.mk ((t.data.dropWhile (· ≠ '?')).drop 1)

/-- How Go's HTTP server parses the request target into `r.URL`
(`url.ParseRequestURI`), for origin-form targets without percent escapes or
fragments — the only targets this program's clients send.  The path and raw
query are split at the first `?`; scheme, host and the escape-related fields
stay empty; `ForceQuery` records a trailing `?` with an empty query. -/
def parseRequestTarget (t : String) : URL :=
  { scheme := ""
    opaq := ""
    host := ""
    path := pathOf t
    rawPath := ""
    omitHost := false
    forceQuery := (t.data.contains '?' && (queryOf t).isEmpty)
    rawQuery := queryOf t
    fragment := ""
    rawFragment := "" }

/-! ## The server (`startServer`, lines 12-35) -/

/-- Outcome of `ioutil.ReadAll`: the bytes read so far, plus the error if
the read failed (Go returns both). -/
abbrev ReadOutcome := String × Option String

/-- An incoming HTTP request as the handlers see it: method, parsed URL,
headers, and the outcome the handler would get from reading the body. -/
structure Request where
  method : String
  url : URL
  headers : List (String × String)
  bodyRead : ReadOutcome
deriving DecidableEq

/-- An HTTP response: status code and accumulated body text. -/
structure Response where
  status : Nat
  body : String
deriving DecidableEq

/-- The `/` handler (lines 15-18): writes the acknowledgment line and the
`%#v` echo of `r.URL`; the implicit status of a plain write is 200. -/
def rootHandler (r : Request) : Response :=
  { status := 200
    body := "getHandler: incoming request\n"
      ++ ("getHandler: r.Url " ++ urlGoRepr r.url ++ "\n") }

/-- The `/raw_body` handler (lines 20-28): on a read error,
`http.Error(w, err.Error(), 500)` — which writes the error text and a
newline (`fmt.Fprintln`) — and returns; on success, echoes the raw body. -/
def rawBodyHandler (r : Request) : Response :=
  match r.bodyRead.2 with
  | some e => { status := 500, body := e ++ "\n" }
  | none => { status := 200, body := "postHandler: raw body " ++ r.bodyRead.1 ++ "\n" }

/-- Split a character list at every `/` (the separators are dropped, empty
segments kept). -/
def splitSlash : List Char → List (List Char)
  | [] => [[]]
  | c :: rest =>
    if c = '/' then [] :: splitSlash rest
    else
      match splitSlash rest with
      | [] => [[c]]
      | s :: ss => (c :: s) :: ss

/-- One step of Go `path.Clean` on a rooted path, over a stack of kept
segments: empty and `.` segments are dropped, `..` pops the previous
segment (or is dropped at the root), anything else is kept. -/
def cleanStep (stack : List (List Char)) (seg : List Char) : List (List Char) :=
  if seg = [] ∨ seg = ['.'] then stack
  else if seg = ['.', '.'] then stack.tail
  else seg :: stack

/-- Join cleaned segments back with `/` separators. -/
def joinSegs : List (List Char) → List Char
  | [] => []
  | [s] => s
  | s :: rest => s ++ '/' :: joinSegs rest

/-- Go `path.Clean` on a rooted path: drop empty and `.` segments, resolve
`..` lexically, never above the root. -/
def cleanRooted (cs : List Char) : List Char :=
  '/' :: joinSegs ((splitSlash cs).foldl cleanStep []).reverse

/-- net/http's `cleanPath`, used by `ServeMux` before routing: empty paths
become `/`, a missing leading `/` is added, the path is lexically cleaned,
and a trailing `/` removed by the cleaning is put back. -/
def cleanPath (p : String) : String :=
  match p.data with
  | [] => "/"
  | c :: cs =>
    let q := if c = '/' then c :: cs else '/' :: c :: cs
    let np := cleanRooted q
    String.mk (if q.getLast? = some '/' ∧ np ≠ ['/'] then np ++ ['/'] else np)

/-- Go's HTML escaper used by `http.Redirect` for the anchor body:
`&`, `'`, `<`, `>` and `"` become entities. -/
def htmlEscapeChar (c : Char) : String :=
  if c = '&' then "&amp;"
  else if c = '\'' then "&#39;"
  else if c = '<' then "&lt;"
  else if c = '>' then "&gt;"
  else if c = '"' then "&#34;"
  else String.singleton c

/-- HTML-escape a character list. -/
def htmlEscList : List Char → List Char
  | [] => []
  | c :: rest => (htmlEscapeChar c).data ++ htmlEscList rest

/-- HTML-escape a string, as `http.Redirect` does to the target URL. -/
def htmlEscape (s : String) : String := String.mk (htmlEscList s.data)

/-- The redirect target `ServeMux` builds for a non-canonical path:
`url.URL` with only the cleaned path and the original raw query, rendered
by `URL.String`. -/
def redirectURL (path rawQuery : String) : String :=
  path ++ (if rawQuery = "" then "" else "?" ++ rawQuery)

/-- `http.Redirect` with status 301 and no prior Content-Type: for GET
requests the body is the HTML anchor line (written with `Fprintln`, hence
the extra newline); for other methods no body is written. -/
def redirectResponse (method url : String) : Response :=
  { status := 301
    body := if method = "GET"
      then "<a href=\"" ++ htmlEscape url ++ "\">Moved Permanently</a>.\n" ++ "\n"
      else "" }

/-- Pattern matching of the registered mux (lines 13-28): the pattern
`/raw_body` matches exactly that path, the pattern `/` matches everything
else. -/
def muxMatch (r : Request) : Response :=
  if r.url.path = "/raw_body" then rawBodyHandler r else rootHandler r

/-- The full `ServeMux` dispatch: CONNECT requests are routed without
canonicalization; every other request whose path is not canonical is
301-redirected to the cleaned path (query preserved); canonical paths are
routed to the matching handler. -/
def serveMux (r : Request) : Response :=
  if r.method = "CONNECT" then muxMatch r
  else if cleanPath r.url.path = r.url.path then muxMatch r
  else redirectResponse r.method (redirectURL (cleanPath r.url.path) r.url.rawQuery)

/-- Result of the server's start-up sequence (lines 31-33). -/
inductive ServerStart where
  | panicked
  | started (addr : String)
deriving DecidableEq

/-- `listener, _ := net.Listen("tcp", ":0")` (line 31): the error is
discarded with `_`; on failure the listener is nil, modelled as `none`. -/
def listenerOf (bind : Except String String) : Option String :=
  match bind with
  | .error _ => none
  | .ok a => some a

/-- `listener.Addr().String()` (line 32): calling a method on a nil
listener is a nil-pointer dereference, which panics the goroutine and
crashes the process. -/
def addrOf : Option String → ServerStart
  | none => ServerStart.panicked
  | some a => ServerStart.started a

/-- The observable start-up behaviour of `startServer` given the outcome of
the `net.Listen` call: it prints nothing in either case, and either reaches
the address hand-off or panics. -/
def startServerRun (bind : Except String String) : List String × ServerStart :=
  ([], addrOf (listenerOf bind))

/-! ## The client driver (`runGet`, `runGetFullReq`, `runTransportAndPost`,
`main`, lines 37-109) -/

/-- The observable actions of one driver function: console lines
(`fmt.Println` / `fmt.Printf`), reading a response body, and the deferred
`resp.Body.Close()`. -/
inductive Action where
  | println (s : String)
  | printf (s : String)
  | readBody
  | closeBody
deriving DecidableEq

/-- The outcome the driver gets from one HTTP call: a transport error, or a
response whose body read yields a `ReadOutcome`. -/
abbrev CallResult := Except String ReadOutcome

/-- `runGet` (lines 37-48): on transport error, print
`error happend <err>` and return; on success, read the body (the read error
is assigned but never checked) and print the quoted body. -/
def runGet (res : CallResult) : List Action :=
  match res with
  | .error e => [Action.println ("error happend " ++ e)]
  | .ok rb =>
    [Action.readBody,
     Action.printf ("http.Get body " ++ goQuote rb.1 ++ "\n\n\n"),
     Action.closeBody]

/-- `runGetFullReq` (lines 50-65): same shape with its own format string. -/
def runGetFullReq (res : CallResult) : List Action :=
  match res with
  | .error e => [Action.println ("error happend " ++ e)]
  | .ok rb =>
    [Action.readBody,
     Action.printf ("testGetFullReq resp " ++ goQuote rb.1 ++ "\n\n\n"),
     Action.closeBody]

/-- `runTransportAndPost` (lines 67-97): same shape with its own format
string. -/
def runTransportAndPost (res : CallResult) : List Action :=
  match res with
  | .error e => [Action.println ("error happend " ++ e)]
  | .ok rb =>
    [Action.readBody,
     Action.printf ("runTransport " ++ goQuote rb.1 ++ "\n\n\n"),
     Action.closeBody]

/-- The transport configuration built in `runTransportAndPost`
(lines 68-74). -/
structure Transport where
  dialTimeoutSec : Nat
  keepAliveSec : Nat
  maxIdleConns : Nat
deriving DecidableEq

/-- The client configuration built in `runTransportAndPost`
(lines 76-79). -/
structure Client where
  timeoutSec : Nat
  transport : Option Transport
deriving DecidableEq

/-- An outbound request as the driver builds it. -/
structure ClientRequest where
  method : String
  url : String
  headers : List (String × String)
  body : String
deriving DecidableEq

/-- The fixed POST payload (line 81). -/
def postData : String := "\x7b\"id\": 42, \"user\": \"rvasily\"\x7d"

/-- The transport of the third call: 30 s dial timeout, 30 s keep-alive,
100 idle connections (lines 68-74). -/
def postTransport : Transport :=
  { dialTimeoutSec := 30, keepAliveSec := 30, maxIdleConns := 100 }

/-- The client of the third call: 10 s overall timeout over
`postTransport` (lines 76-79). -/
def postClient : Client :=
  { timeoutSec := 10, transport := some postTransport }

/-- The request of the third call: POST to `{serverURL}/raw_body` with the
fixed payload and a `Content-Type: application/json` header
(lines 84-86). -/
def postRequest (serverURL : String) : ClientRequest :=
  { method := "POST"
    url := serverURL ++ "/raw_body"
    headers := [("Content-Type", "application/json")]
    body := postData }

/-- `main` (lines 99-109): print the announced address, then run the three
calls in order.  The parameters are the received address and the outcome of
each HTTP call. -/
def main (addr : String) (r1 r2 r3 : CallResult) : List Action :=
  Action.println ("Server started at: http://" ++ addr)
    :: (runGet r1 ++ (runGetFullReq r2 ++ runTransportAndPost r3))

/-! ## The start-up hand-off as a labelled transition system

`main` launches `startServer` as a goroutine and blocks on `<-addr`
(line 103); `startServer` sends exactly once, after binding (line 32).  The
unbuffered channel makes send and receive one rendezvous.  The server task
is `sv` (0 = before `net.Listen`, 1 = bound, 2 = address delivered /
serving) and the main task is `mn` (0 = blocked on `<-addr`, then one step
per console print or call start, up to 8 = done). -/

structure Proc where
  sv : Nat
  mn : Nat
deriving DecidableEq

/-- The observable events of the two tasks. -/
inductive Ev where
  | bind
  | handoff
  | printStarted
  | getStart
  | getDone
  | fullStart
  | fullDone
  | postStart
  | postDone
deriving DecidableEq

/-- One interleaved step of the two tasks.  `handoff` is the rendezvous on
the unbuffered channel: it needs the server bound and the main task still
blocked, and advances both. -/
inductive Step : Proc → Ev → Proc → Prop where
  | bindStep (m : Nat) : Step ⟨0, m⟩ Ev.bind ⟨1, m⟩
  | handoff : Step ⟨1, 0⟩ Ev.handoff ⟨2, 1⟩
  | printStarted (s : Nat) : Step ⟨s, 1⟩ Ev.printStarted ⟨s, 2⟩
  | getStart (s : Nat) : Step ⟨s, 2⟩ Ev.getStart ⟨s, 3⟩
  | getDone (s : Nat) : Step ⟨s, 3⟩ Ev.getDone ⟨s, 4⟩
  | fullStart (s : Nat) : Step ⟨s, 4⟩ Ev.fullStart ⟨s, 5⟩
  | fullDone (s : Nat) : Step ⟨s, 5⟩ Ev.fullDone ⟨s, 6⟩
  | postStart (s : Nat) : Step ⟨s, 6⟩ Ev.postStart ⟨s, 7⟩
  | postDone (s : Nat) : Step ⟨s, 7⟩ Ev.postDone ⟨s, 8⟩

/-- A finite execution: a trace of steps from one state to another. -/
inductive Exec : Proc → List Ev → Proc → Prop where
  | nil (p : Proc) : Exec p [] p
  | cons {p q r : Proc} {e : Ev} {tr : List Ev} :
      Step p e q → Exec q tr r → Exec p (e :: tr) r

/-- Events of the main task (the rendezvous included; only the server's
solitary `bind` is not a main-task event). -/
def isMainEv : Ev → Bool
  | Ev.bind => false
  | _ => true

/-- Projection of a trace onto the main task's events. -/
def mainTraceOf (tr : List Ev) : List Ev := tr.filter isMainEv

/-- The one order the main task's events can occur in: the address
rendezvous first, then the three calls, each started only after the
previous call's result was printed. -/
def canonicalMain : List Ev :=
  [Ev.handoff, Ev.printStarted,
   Ev.getStart, Ev.getDone,
   Ev.fullStart, Ev.fullDone,
   Ev.postStart, Ev.postDone]

/-- State invariant of the hand-off system: the main task has moved only if
the server has delivered the address, and both counters stay in range. -/
def stateInv (p : Proc) : Prop :=
  (1 ≤ p.mn → p.sv = 2) ∧ p.mn ≤ 8 ∧ p.sv ≤ 2

/-! ## Substring containment -/

/-- `pat` occurs contiguously inside `s`. -/
def strContains (s pat : String) : Prop :=
  ∃ a b : List Char, s.data = a ++ (pat.data ++ b)

/-- Number of newline characters in a string (used to count response
lines). -/
def countNL (s : String) : Nat := s.data.count '\n'

/-! ## The concrete driver requests -/

/-- Request target of driver call 1 (line 38). -/
def getTarget1 : String := "/?param=123&param2=test"

/-- Request target of driver call 2 (line 51). -/
def getTarget2 : String := "/?id=42&user=rvasily"

/-- The server-side view of driver call 1's request. -/
def driverReq1 : Request :=
  { method := "GET"
    url := parseRequestTarget getTarget1
    headers := []
    bodyRead := ("", none) }

/-- The server-side view of driver call 2's request (with its custom
`User-Agent`, line 54). -/
def driverReq2 : Request :=
  { method := "GET"
    url := parseRequestTarget getTarget2
    headers := [("User-Agent", "coursera/golang")]
    bodyRead := ("", none) }

/-- The server-side view of driver call 3's request: the POST body is read
successfully as `postData`. -/
def postReqSrv : Request :=
  { method := "POST"
    url := parseRequestTarget "/raw_body"
    headers := [("Content-Type", "application/json")]
    bodyRead := (postData, none) }

/-- A `/raw_body` request on which the server-side body read fails. -/
def rawErrReq : Request :=
  { method := "POST"
    url := parseRequestTarget "/raw_body"
    headers := []
    bodyRead := ("", some "unexpected EOF") }

/-- A GET request with a non-canonical path: the real mux 301-redirects it
to `/` instead of serving the two-line page. -/
def doubleSlashReq : Request :=
  { method := "GET"
    url := parseRequestTarget "//"
    headers := []
    bodyRead := ("", none) }

/-- A GET request to the root route whose raw query contains a double
quote: the `%#v` echo escapes it, so the exact query bytes do not appear
in the response. -/
def quoteReq : Request :=
  { method := "GET"
    url := parseRequestTarget "/?a\"b"
    headers := []
    bodyRead := ("", none) }

/-- The complete interleaved trace of one normal run: the server binds,
the rendezvous delivers the address, and the main task runs its three
calls. -/
def fullTrace : List Ev :=
  [Ev.bind, Ev.handoff, Ev.printStarted,
   Ev.getStart, Ev.getDone,
   Ev.fullStart, Ev.fullDone,
   Ev.postStart, Ev.postDone]

/-! ## Helper lemmas -/

/-- No escaped character ever renders as a newline. -/
theorem goEscapeChar_count_nl (c : Char) : (goEscapeChar c).data.count '\n' = 0 := by
  unfold goEscapeChar
  split
  · rfl
  split
  · rfl
  split
  · rfl
  split
  · rfl
  split
  · rfl
  rename_i h1 h2 h3 h4 h5
  simp [String.singleton, List.count_cons, List.count_nil, h3]

/-- Go-escaped text contains no newline characters. -/
theorem goEscape_count_nl (cs : List Char) : (goEscape cs).count '\n' = 0 := by
  induction cs with
  | nil => rfl
  | cons c rest ih =>
    simp [goEscape, List.count_append, ih, goEscapeChar_count_nl]

/-- A Go-quoted string contains no newline characters. -/
theorem goQuote_data_count_nl (s : String) : (goQuote s).data.count '\n' = 0 := by
  simp [goQuote, List.count_cons, List.count_append, goEscape_count_nl]

/-- Go's bool rendering contains no newline characters. -/
theorem showBool_data_count_nl (b : Bool) : (showBool b).data.count '\n' = 0 := by
  cases b <;> rfl

/-- The Go-syntax rendering of a URL is newline-free: every string field is
quoted (escaping newlines) and the skeleton text has no newline. -/
theorem urlGoRepr_count_nl (u : URL) : countNL (urlGoRepr u) = 0 := by
  simp only [countNL, urlGoRepr, String.data_append, List.count_append,
    goQuote_data_count_nl, showBool_data_count_nl]
  decide

/-- Escaping a string of plain characters leaves it unchanged. -/
theorem goEscape_plain (cs : List Char)
    (h : ∀ c ∈ cs, goEscapeChar c = String.singleton c) : goEscape cs = cs := by
  induction cs with
  | nil => rfl
  | cons c rest ih =>
    have hc := h c (List.mem_cons_self c rest)
    simp [goEscape, hc, String.singleton, ih fun x hx => h x (List.mem_cons_of_mem c hx)]

/-- A contained pattern stays contained when text is appended on the
right. -/
theorem strContains_appendR {s pat : String} (h : strContains s pat) (t : String) :
    strContains (s ++ t) pat := by
  obtain ⟨a, b, hab⟩ := h
  exact ⟨a, b ++ t.data, by simp [String.data_append, hab]⟩

/-- A contained pattern stays contained when text is prepended on the
left. -/
theorem strContains_appendL {t pat : String} (h : strContains t pat) (s : String) :
    strContains (s ++ t) pat := by
  obtain ⟨a, b, hab⟩ := h
  exact ⟨s.data ++ a, b, by simp [String.data_append, hab]⟩

/-- A plain string occurs verbatim inside its own Go quotation. -/
theorem strContains_goQuote {s : String} (h : goPlainStr s) :
    strContains (goQuote s) s :=
  ⟨['"'], ['"'], by simp [goQuote, goEscape_plain s.data h]⟩

/-- Containment of a pattern is contiguous-sublist containment of its
character data, which is decidable on concrete strings. -/
theorem strContains_iff_infixData {s pat : String} :
    strContains s pat ↔ pat.data <:+: s.data := by
  constructor
  · rintro ⟨a, b, h⟩
    exact ⟨a, b, by rw [h, List.append_assoc]⟩
  · rintro ⟨a, b, h⟩
    exact ⟨a, b, by rw [← h, List.append_assoc]⟩

/-! ## Claims -/

/-- C1 (amended): for every request routed to `/raw_body` whose body is
read successfully as `b`, the handler responds with status 200 and the body
`postHandler: raw body ` followed by `b` and a terminating newline; in
particular `b` itself appears byte-for-byte in the response body. -/
theorem c1_raw_body_echo (r : Request) (b : String)
    (hp : r.url.path = "/raw_body") (hb : r.bodyRead = (b, none)) :
    serveMux r = { status := 200, body := "postHandler: raw body " ++ b ++ "\n" } ∧
    strContains (serveMux r).body b := by
  have hcp : cleanPath "/raw_body" = "/raw_body" := by decide
  have hs : serveMux r
      = { status := 200, body := "postHandler: raw body " ++ b ++ "\n" } := by
    simp [serveMux, muxMatch, hp, hcp, rawBodyHandler, hb]
  refine ⟨hs, ?_⟩
  rw [hs]
  exact ⟨"postHandler: raw body ".data, ['\n'],
    by simp [String.data_append, List.append_assoc]⟩

/-- C1 counterexample: POSTing the fixed JSON literal to `/raw_body` yields
a response body that is the claimed literal followed by a newline, not the
claimed literal itself. -/
theorem c1_counterexample :
    (serveMux postReqSrv).body
        = "postHandler: raw body \x7b\"id\": 42, \"user\": \"rvasily\"\x7d\n" ∧
    (serveMux postReqSrv).body
        ≠ "postHandler: raw body \x7b\"id\": 42, \"user\": \"rvasily\"\x7d" := by
  exact ⟨rfl, by decide⟩

/-- C1 witness: the amended claim evaluated at the driver's actual POST. -/
theorem c1_raw_body_echo_witness :
    serveMux postReqSrv
      = { status := 200, body := "postHandler: raw body " ++ postData ++ "\n" } ∧
    strContains (serveMux postReqSrv).body postData :=
  c1_raw_body_echo postReqSrv postData rfl rfl

/-- C2 (amended): when the body read fails on a `/raw_body` request, the
handler responds with status 500 and a body equal to the error text
followed by a newline (http.Error writes with Fprintln), and nothing else:
the echo line is not written. -/
theorem c2_read_error_500 (r : Request) (d e : String)
    (hp : r.url.path = "/raw_body") (hb : r.bodyRead = (d, some e)) :
    serveMux r = { status := 500, body := e ++ "\n" } := by
  have hcp : cleanPath "/raw_body" = "/raw_body" := by decide
  simp [serveMux, muxMatch, hp, hcp, rawBodyHandler, hb]

/-- C2 counterexample: on a failed read the response body is the error text
plus a newline, so it is not equal to the error's text representation. -/
theorem c2_counterexample :
    serveMux rawErrReq = { status := 500, body := "unexpected EOF\n" } ∧
    (serveMux rawErrReq).body ≠ "unexpected EOF" := by
  exact ⟨rfl, by decide⟩

/-- C2 witness: the amended claim evaluated at a concrete failed read. -/
theorem c2_read_error_500_witness :
    serveMux rawErrReq = { status := 500, body := "unexpected EOF" ++ "\n" } :=
  c2_read_error_500 rawErrReq "" "unexpected EOF" rfl rfl

/-- C6: on a transport error, each driver call prints only the error line
(`error happend <err>`), reads no body, and `main` still performs the
remaining calls: the overall action list keeps the later calls' actions. -/
theorem c6_transport_error_continues (e a : String) (f g : CallResult) :
    runGet (Except.error e) = [Action.println ("error happend " ++ e)] ∧
    Action.readBody ∉ runGet (Except.error e) ∧
    runGetFullReq (Except.error e) = [Action.println ("error happend " ++ e)] ∧
    Action.readBody ∉ runGetFullReq (Except.error e) ∧
    runTransportAndPost (Except.error e) = [Action.println ("error happend " ++ e)] ∧
    Action.readBody ∉ runTransportAndPost (Except.error e) ∧
    main a (Except.error e) f g =
      Action.println ("Server started at: http://" ++ a)
        :: Action.println ("error happend " ++ e)
        :: (runGetFullReq f ++ runTransportAndPost g) ∧
    main a f (Except.error e) g =
      Action.println ("Server started at: http://" ++ a)
        :: (runGet f ++ (Action.println ("error happend " ++ e)
              :: runTransportAndPost g)) ∧
    main a f g (Except.error e) =
      Action.println ("Server started at: http://" ++ a)
        :: (runGet f ++ (runGetFullReq g
              ++ [Action.println ("error happend " ++ e)])) := by
  refine ⟨rfl, by simp [runGet], rfl, by simp [runGetFullReq], rfl,
    by simp [runTransportAndPost], ?_, ?_, ?_⟩
  · simp [main, runGet]
  · simp [main, runGetFullReq]
  · simp [main, runTransportAndPost]

/-- C7 counterexample: when the client-side body read fails, the driver
does not print the error at all: the action list is the ordinary success
shape (printing the partial body), with no error line. -/
theorem c7_counterexample :
    runGet (Except.ok ("", some "unexpected EOF")) =
      [Action.readBody,
       Action.printf ("http.Get body " ++ goQuote "" ++ "\n\n\n"),
       Action.closeBody] ∧
    Action.println ("error happend " ++ "unexpected EOF") ∉
      runGet (Except.ok ("", some "unexpected EOF")) := by
  exact ⟨rfl, by decide⟩

/-- C7 (amended): a client-side body-read failure is silently ignored in
all three driver calls: the error value is discarded and the driver prints
whatever bytes were read, formatted as a normal success line. -/
theorem c7_read_error_ignored (d e : String) :
    runGet (Except.ok (d, some e)) =
      [Action.readBody,
       Action.printf ("http.Get body " ++ goQuote d ++ "\n\n\n"),
       Action.closeBody] ∧
    runGetFullReq (Except.ok (d, some e)) =
      [Action.readBody,
       Action.printf ("testGetFullReq resp " ++ goQuote d ++ "\n\n\n"),
       Action.closeBody] ∧
    runTransportAndPost (Except.ok (d, some e)) =
      [Action.readBody,
       Action.printf ("runTransport " ++ goQuote d ++ "\n\n\n"),
       Action.closeBody] :=
  ⟨rfl, rfl, rfl⟩

/-- C8 counterexample: a failure of `net.Listen` is not reported and not
skipped: the error is discarded, nothing is printed, and dereferencing the
nil listener panics the process instead of letting execution proceed. -/
theorem c8_counterexample :
    startServerRun (Except.error "listen tcp :0: bind: address already in use")
      = ([], ServerStart.panicked) ∧
    (startServerRun (Except.error "listen tcp :0: bind: address already in use")).2
      ≠ ServerStart.started "0.0.0.0:0" := by
  exact ⟨rfl, by decide⟩

/-- C8 (amended): every error the program checks is non-fatal and reported
as plain text — transport errors of the three calls are printed and the
run continues through all three steps, and a server-side body-read failure
becomes a 500 response with the error text — but the server's bind error is
discarded and a bind failure panics via the nil listener. -/
theorem c8_checked_errors_nonfatal (a e1 e2 e3 eb d er m : String) :
    main a (Except.error e1) (Except.error e2) (Except.error e3) =
      [Action.println ("Server started at: http://" ++ a),
       Action.println ("error happend " ++ e1),
       Action.println ("error happend " ++ e2),
       Action.println ("error happend " ++ e3)] ∧
    serveMux { method := m, url := parseRequestTarget "/raw_body", headers := [],
               bodyRead := (d, some er) } = { status := 500, body := er ++ "\n" } ∧
    startServerRun (Except.error eb) = ([], ServerStart.panicked) := by
  refine ⟨by simp [main, runGet, runGetFullReq, runTransportAndPost], ?_, rfl⟩
  have hp : (parseRequestTarget "/raw_body").path = "/raw_body" := by decide
  have hcp : cleanPath "/raw_body" = "/raw_body" := by decide
  simp [serveMux, muxMatch, hp, hcp, rawBodyHandler]

/-- C9: the third driver call's transport uses a 30-second dial timeout, a
30-second keep-alive and at most 100 idle connections, its client a
10-second overall timeout, and the request is a POST of the fixed JSON
literal to `{serverURL}/raw_body` with a `Content-Type: application/json`
header. -/
theorem c9_post_transport_config (s : String) :
    postClient.timeoutSec = 10 ∧
    postClient.transport = some postTransport ∧
    postTransport.dialTimeoutSec = 30 ∧
    postTransport.keepAliveSec = 30 ∧
    postTransport.maxIdleConns = 100 ∧
    (postRequest s).method = "POST" ∧
    (postRequest s).url = s ++ "/raw_body" ∧
    (postRequest s).headers = [("Content-Type", "application/json")] ∧
    (postRequest s).body = "\x7b\"id\": 42, \"user\": \"rvasily\"\x7d" :=
  ⟨rfl, rfl, rfl, rfl, rfl, rfl, rfl, rfl, rfl⟩

/-- C10: both handlers are deterministic and stateless: two requests that
agree on method, parsed URL and body-read outcome get identical responses,
whatever their other fields (headers) and whatever came before. -/
theorem c10_handlers_deterministic (r1 r2 : Request)
    (hm : r1.method = r2.method) (hu : r1.url = r2.url)
    (hb : r1.bodyRead = r2.bodyRead) :
    serveMux r1 = serveMux r2 := by
  simp only [serveMux, muxMatch, rootHandler, rawBodyHandler,
    redirectResponse, redirectURL, hm, hu, hb]

/-- C10 witness: two concrete requests differing only in headers get the
same response. -/
theorem c10_handlers_deterministic_witness :
    serveMux { method := "GET", url := parseRequestTarget "/?param=123&param2=test",
               headers := [("X-Debug", "1")], bodyRead := ("", none) }
      = serveMux { method := "GET", url := parseRequestTarget "/?param=123&param2=test",
                   headers := [], bodyRead := ("", none) } :=
  c10_handlers_deterministic _ _ rfl rfl rfl

/-- C3 counterexample: a request with a non-canonical path is not answered
with the two-line 200 page: the mux 301-redirects `GET //` to `/` with the
HTML anchor body, so the original universal claim is false. -/
theorem c3_counterexample :
    serveMux doubleSlashReq
      = { status := 301,
          body := "<a href=\"/\">Moved Permanently</a>.\n\n" } ∧
    (serveMux doubleSlashReq).status ≠ 200 := by
  exact ⟨rfl, by decide⟩

/-- C3 (amended): every request whose path is canonical (unchanged by the
mux's path cleaning) and does not match the `/raw_body` route gets status
200 and a body of exactly two newline-terminated text lines: the
acknowledgment line `getHandler: incoming request`, then the line echoing
the Go-syntax rendering of the parsed URL.  Requests with non-canonical
paths are 301-redirected to the cleaned path instead. -/
theorem c3_root_two_lines (r : Request)
    (hc : cleanPath r.url.path = r.url.path) (h : r.url.path ≠ "/raw_body") :
    (serveMux r).status = 200 ∧
    (serveMux r).body = "getHandler: incoming request\n"
      ++ ("getHandler: r.Url " ++ urlGoRepr r.url ++ "\n") ∧
    countNL (serveMux r).body = 2 ∧
    strContains (serveMux r).body "getHandler: incoming request" := by
  have hmux : serveMux r = rootHandler r := by
    simp [serveMux, hc, muxMatch, h]
  have hst : (serveMux r).status = 200 := by rw [hmux]; rfl
  have hs : (serveMux r).body = "getHandler: incoming request\n"
      ++ ("getHandler: r.Url " ++ urlGoRepr r.url ++ "\n") := by rw [hmux]; rfl
  refine ⟨hst, hs, ?_, ?_⟩
  · rw [hs]
    have hu := urlGoRepr_count_nl r.url
    simp only [countNL, String.data_append, List.count_append] at hu ⊢
    rw [hu]
    decide
  · rw [hs]
    refine ⟨[], '\n' :: ("getHandler: r.Url ".data
      ++ ((urlGoRepr r.url).data ++ ['\n'])), ?_⟩
    have h1 : ("getHandler: incoming request\n").data
        = ("getHandler: incoming request").data ++ ['\n'] := by decide
    have h2 : ("\n").data = ['\n'] := by decide
    simp [String.data_append, h1, h2, List.append_assoc]

/-- C3 witness: the two-line shape evaluated at the driver's first GET. -/
theorem c3_root_two_lines_witness :
    (serveMux driverReq1).status = 200 ∧
    (serveMux driverReq1).body = "getHandler: incoming request\n"
      ++ ("getHandler: r.Url " ++ urlGoRepr driverReq1.url ++ "\n") ∧
    countNL (serveMux driverReq1).body = 2 ∧
    strContains (serveMux driverReq1).body "getHandler: incoming request" :=
  c3_root_two_lines driverReq1 (by decide) (by decide)

set_option maxRecDepth 4000 in
/-- C4 counterexample: a root-route GET whose raw query contains a double
quote is echoed in escaped form only: the response body does not embed the
exact query string, so the original universal claim is false. -/
theorem c4_counterexample :
    quoteReq.url.rawQuery = "a\"b" ∧
    ¬ strContains (serveMux quoteReq).body "a\"b" := by
  refine ⟨by decide, ?_⟩
  rw [strContains_iff_infixData]
  decide

/-- C4 (amended): for every request dispatched to the root handler (path
canonical and not `/raw_body`) whose raw query consists of characters that
Go quoting leaves unchanged — which covers both driver calls — the response
body embeds the exact query string inside the echoed URL rendering; queries
containing characters that Go quoting escapes appear escaped instead, and
non-canonical paths are 301-redirected. -/
theorem c4_query_echoed (r : Request) (hq : goPlainStr r.url.rawQuery)
    (hc : cleanPath r.url.path = r.url.path)
    (hp : r.url.path ≠ "/raw_body") :
    strContains (serveMux r).body r.url.rawQuery := by
  have hmux : serveMux r = rootHandler r := by
    simp [serveMux, hc, muxMatch, hp]
  have hs : (serveMux r).body = "getHandler: incoming request\n"
      ++ ("getHandler: r.Url " ++ urlGoRepr r.url ++ "\n") := by rw [hmux]; rfl
  rw [hs]
  apply strContains_appendL
  apply strContains_appendR
  apply strContains_appendL
  unfold urlGoRepr
  apply strContains_appendR
  apply strContains_appendR
  apply strContains_appendR
  apply strContains_appendR
  apply strContains_appendR
  apply strContains_appendL
  exact strContains_goQuote hq

/-- C4 witness: the exact query strings of the two driver GET calls appear
in the respective response bodies. -/
theorem c4_query_echoed_witness :
    strContains (serveMux driverReq1).body "param=123&param2=test" ∧
    strContains (serveMux driverReq2).body "id=42&user=rvasily" := by
  constructor
  · have h : driverReq1.url.rawQuery = "param=123&param2=test" := by decide
    exact h ▸ c4_query_echoed driverReq1 (by unfold goPlainStr; decide)
      (by decide) (by decide)
  · have h : driverReq2.url.rawQuery = "id=42&user=rvasily" := by decide
    exact h ▸ c4_query_echoed driverReq2 (by unfold goPlainStr; decide)
      (by decide) (by decide)

/-- Every step of the hand-off system preserves the state invariant. -/
theorem step_inv {p q : Proc} {e : Ev} (hs : Step p e q) (hp : stateInv p) :
    stateInv q := by
  obtain ⟨h1, h2, h3⟩ := hp
  cases hs with
  | bindStep m =>
    refine ⟨?_, h2, show (1:Nat) ≤ 2 by decide⟩
    intro hm
    exact absurd (h1 hm) (show ¬((0:Nat) = 2) by decide)
  | handoff =>
    exact ⟨fun _ => rfl, show (1:Nat) ≤ 8 by decide, show (2:Nat) ≤ 2 by decide⟩
  | printStarted s =>
    have hsv : s = 2 := h1 (show (1:Nat) ≤ 1 by decide)
    exact ⟨fun _ => hsv, show (2:Nat) ≤ 8 by decide, h3⟩
  | getStart s =>
    have hsv : s = 2 := h1 (show (1:Nat) ≤ 2 by decide)
    exact ⟨fun _ => hsv, show (3:Nat) ≤ 8 by decide, h3⟩
  | getDone s =>
    have hsv : s = 2 := h1 (show (1:Nat) ≤ 3 by decide)
    exact ⟨fun _ => hsv, show (4:Nat) ≤ 8 by decide, h3⟩
  | fullStart s =>
    have hsv : s = 2 := h1 (show (1:Nat) ≤ 4 by decide)
    exact ⟨fun _ => hsv, show (5:Nat) ≤ 8 by decide, h3⟩
  | fullDone s =>
    have hsv : s = 2 := h1 (show (1:Nat) ≤ 5 by decide)
    exact ⟨fun _ => hsv, show (6:Nat) ≤ 8 by decide, h3⟩
  | postStart s =>
    have hsv : s = 2 := h1 (show (1:Nat) ≤ 6 by decide)
    exact ⟨fun _ => hsv, show (7:Nat) ≤ 8 by decide, h3⟩
  | postDone s =>
    have hsv : s = 2 := h1 (show (1:Nat) ≤ 7 by decide)
    exact ⟨fun _ => hsv, show (8:Nat) ≤ 8 by decide, h3⟩

/-- Along any execution from an invariant state, the main task's projected
trace advances through the canonical order, one prefix step per main
event. -/
theorem exec_main_trace {p : Proc} {tr : List Ev} {q : Proc}
    (hx : Exec p tr q) (hp : stateInv p) :
    canonicalMain.take p.mn ++ mainTraceOf tr = canonicalMain.take q.mn
      ∧ stateInv q := by
  induction hx with
  | nil p => exact ⟨by simp [mainTraceOf], hp⟩
  | cons hs hrest ih =>
    have hq := step_inv hs hp
    obtain ⟨ht, hinv⟩ := ih hq
    refine ⟨?_, hinv⟩
    cases hs <;>
      simpa [mainTraceOf, List.filter_cons, isMainEv, canonicalMain] using ht

/-- C5: in every interleaved execution of the server task and the main
task, the main task's observable events form a prefix of the canonical
order: the address rendezvous first, then the start-up print, then the
three calls strictly in sequence with each call's result printed before
the next call starts. -/
theorem c5_address_before_calls {tr : List Ev} {q : Proc}
    (hx : Exec ⟨0, 0⟩ tr q) :
    mainTraceOf tr = canonicalMain.take q.mn ∧ q.mn ≤ 8 := by
  have hinit : stateInv (⟨0, 0⟩ : Proc) :=
    ⟨fun hm => absurd hm (by decide), by decide, by decide⟩
  obtain ⟨ht, hinv⟩ := exec_main_trace hx hinit
  exact ⟨by simpa using ht, hinv.2.1⟩

/-- C5 witness: the canonical full run is an execution, and its main-task
projection is the whole canonical order. -/
theorem c5_address_before_calls_witness :
    mainTraceOf fullTrace = canonicalMain.take (Proc.mk 2 8).mn
      ∧ (Proc.mk 2 8).mn ≤ 8 :=
  c5_address_before_calls
    (Exec.cons (Step.bindStep 0)
      (Exec.cons Step.handoff
        (Exec.cons (Step.printStarted 2)
          (Exec.cons (Step.getStart 2)
            (Exec.cons (Step.getDone 2)
              (Exec.cons (Step.fullStart 2)
                (Exec.cons (Step.fullDone 2)
                  (Exec.cons (Step.postStart 2)
                    (Exec.cons (Step.postDone 2) (Exec.nil ⟨2, 8⟩))))))))))

end Requests
